import Mathlib

/-!
Shallow embedding of the capacity / lifecycle core of the
`sistema-logistica` Django backend (src/core/models.py, src/core/views.py,
src/core/serializers.py), together with proofs about its business rules.

Modelling conventions:
* Machine time (`timezone.now()`) is passed explicitly as a `Nat` parameter.
* `Decimal` columns with two decimal places (`km_atual`, `km_total_real`)
  are modelled as `Int` (value scaled by 100); their arithmetic in the
  source is exact decimal addition, which is exact integer addition here.
* Foreign keys from `Rota` to `Motorista`/`Veiculo` are modelled by
  embedding the referenced record (the Django code mutates and saves the
  related object through the route, e.g. `self.motorista.save()`), while
  the `Entrega.motorista` / `Entrega.rota` foreign keys are modelled as
  optional primary keys, which is all the code reads of them.
* The `Entrega` table is a `List Entrega`; `HistoricoEntrega` is an
  append-only `List HistoricoEntrega`.  The many-to-many set
  `Rota.entregas` is a `Finset Nat` of delivery primary keys (the Django
  through table has a uniqueness constraint on the pair, so `add` has
  set-insert semantics).
* Each HTTP action is a pure function from the objects it fetches and the
  request data to `Except ApiError result`; an `ApiError` result models an
  early `return Response(..., status=4xx)` taken before any mutation, so
  the database is unchanged exactly when the source performed no write.
* `uuid`-based tracking-code generation is nondeterministic; the fresh
  code is passed in as a `fresh : String` parameter.
-/

namespace Logistica

/-- Status choices of `Entrega` (models.py `StatusEntrega`). -/
inductive StatusEntrega where
  | pendente
  | em_transito
  | entregue
  | cancelada
  | remarcada
deriving DecidableEq, Repr

/-- Status choices of `Motorista` (models.py `StatusMotorista`). -/
inductive StatusMotorista where
  | ativo
  | inativo
  | em_rota
  | disponivel
deriving DecidableEq, Repr

/-- Status choices of `Veiculo` (models.py `StatusVeiculo`). -/
inductive StatusVeiculo where
  | disponivel
  | em_uso
  | manutencao
deriving DecidableEq, Repr

/-- Status choices of `Rota` (models.py `StatusRota`). -/
inductive StatusRota where
  | planejada
  | em_andamento
  | concluida
  | cancelada
deriving DecidableEq, Repr

/-- Driver record: the fields of `Motorista` the lifecycle logic touches. -/
structure Motorista where
  id : Nat
  status : StatusMotorista
deriving DecidableEq, Repr

/-- Vehicle record: the fields of `Veiculo` the capacity and lifecycle
logic touches.  `km_atual` is the odometer (Decimal, scaled to `Int`). -/
structure Veiculo where
  id : Nat
  capacidade_maxima : Nat
  km_atual : Int
  status : StatusVeiculo
deriving DecidableEq, Repr

/-- Delivery record: the fields of `Entrega` the core logic touches.
`motorista` and `rota` hold the referenced primary keys. -/
structure Entrega where
  id : Nat
  codigo_rastreio : String
  status : StatusEntrega
  capacidade_necessaria : Nat
  data_entrega_real : Option Nat
  motorista : Option Nat
  rota : Option Nat
deriving DecidableEq, Repr

/-- Route record: the fields of `Rota` the core logic touches.  `entregas`
is the many-to-many set of delivery primary keys. -/
structure Rota where
  id : Nat
  motorista : Option Motorista
  veiculo : Option Veiculo
  status : StatusRota
  capacidade_total_utilizada : Nat
  km_total_real : Int
  tempo_real_minutos : Int
  entregas : Finset Nat
  data_inicio : Option Nat
  data_conclusao : Option Nat
deriving DecidableEq

/-- Append-only audit row `HistoricoEntrega` (models.py). -/
structure HistoricoEntrega where
  entrega : Nat
  status_anterior : StatusEntrega
  status_novo : StatusEntrega
  observacao : String
  motorista : Option Nat
  data_atualizacao : Nat
deriving DecidableEq, Repr

/-- A 4xx response returned by a view before performing any write:
HTTP status code plus the error message from the source. -/
structure ApiError where
  status : Nat
  msg : String
deriving DecidableEq, Repr

/-- models.py `Entrega.save`: on every persist, if the delivery is marked
`entregue` and has no real delivery date yet, stamp it with the current
time; and if the tracking code is empty, fill in a freshly generated one. -/
def Entrega.save (e : Entrega) (now : Nat) (fresh : String) : Entrega :=
  let e1 :=
    if e.status = StatusEntrega.entregue ∧ e.data_entrega_real = none then
      { e with data_entrega_real := some now }
    else e
  if e1.codigo_rastreio = "" then { e1 with codigo_rastreio := fresh } else e1

/-- The `capacidade_necessaria` column of the `Entrega` table, keyed by
primary key; absent rows contribute 0 (SQL `SUM` ignores them). -/
def capOf (db : List Entrega) (i : Nat) : Nat :=
  ((db.find? (fun e => e.id = i)).map (fun e => e.capacidade_necessaria)).getD 0

/-- models.py `Rota.calcular_capacidade_utilizada`: aggregate
`Sum('capacidade_necessaria')` over the route's delivery set, with
`total or 0` turning the `NULL` of an empty set into 0. -/
def Rota.calcular_capacidade_utilizada (rota : Rota) (db : List Entrega) : Nat :=
  Finset.sum rota.entregas (capOf db)

/-- models.py `Rota.save`: recompute `capacidade_total_utilizada` from the
current delivery set (the `if self.pk` guard holds for every route the
views operate on, since they all act on already-persisted rows), then
cascade the route status to the related driver and vehicle:
`em_andamento` forces driver `em_rota` / vehicle `em_uso`, `concluida`
forces both back to `disponivel`. -/
def Rota.save (rota : Rota) (db : List Entrega) : Rota :=
  let r := { rota with
    capacidade_total_utilizada := rota.calcular_capacidade_utilizada db }
  match r.status with
  | StatusRota.em_andamento =>
      { r with
        motorista := r.motorista.map (fun m => { m with status := StatusMotorista.em_rota }),
        veiculo := r.veiculo.map (fun v => { v with status := StatusVeiculo.em_uso }) }
  | StatusRota.concluida =>
      { r with
        motorista := r.motorista.map (fun m => { m with status := StatusMotorista.disponivel }),
        veiculo := r.veiculo.map (fun v => { v with status := StatusVeiculo.disponivel }) }
  | _ => r

/-- serializers.py `EntregaStatusUpdateSerializer` transition table for
non-staff users (`allowed_transitions` dict); statuses that are not keys
of the dict map to `none`. -/
def allowed_transitions : StatusEntrega → Option (List StatusEntrega)
  | StatusEntrega.pendente => some [StatusEntrega.em_transito]
  | StatusEntrega.em_transito => some [StatusEntrega.entregue, StatusEntrega.remarcada]
  | StatusEntrega.remarcada => some [StatusEntrega.em_transito]
  | _ => none

/-- serializers.py `EntregaStatusUpdateSerializer.validate_status`:
returns `true` when the requested `value` is accepted.  Staff users are
never checked; for non-staff the serializer raises only when the current
status is a key of `allowed_transitions` and the value is not in its
list.  (The `if not request` early return is unreachable from the view,
which always passes the request in the context.)  The `value` is already
a member of the enum, because the `status` field is a `ChoiceField` over
`StatusEntrega.choices`. -/
def validate_status (is_staff : Bool) (current value : StatusEntrega) : Bool :=
  if is_staff then
    true
  else
    match allowed_transitions current with
    | some allowed => decide (value ∈ allowed)
    | none => true

/-- views.py `EntregaViewSet.atualizar_status`: validate the requested
status with `EntregaStatusUpdateSerializer`; on success record the old
status, set the new one, stamp `data_entrega_real` on the first move into
`entregue`, persist the delivery, and append exactly one
`HistoricoEntrega` row with the old/new pair and the delivery's driver. -/
def EntregaViewSet.atualizar_status (entrega : Entrega) (hist : List HistoricoEntrega)
    (is_staff : Bool) (novo_status : StatusEntrega) (observacao : String)
    (now : Nat) (fresh : String) :
    Except ApiError (Entrega × List HistoricoEntrega) :=
  if validate_status is_staff entrega.status novo_status then
    let status_anterior := entrega.status
    let e1 := { entrega with status := novo_status }
    let e2 :=
      if novo_status = StatusEntrega.entregue ∧ e1.data_entrega_real = none then
        { e1 with data_entrega_real := some now }
      else e1
    let e3 := Entrega.save e2 now fresh
    Except.ok (e3, hist ++ [{
      entrega := e3.id,
      status_anterior := status_anterior,
      status_novo := novo_status,
      observacao := observacao,
      motorista := e3.motorista,
      data_atualizacao := now }])
  else
    Except.error ⟨400, "Transição de status não permitida"⟩

/-- views.py `EntregaViewSet.atribuir_motorista`: require a
`motorista_id`, look up a driver with that id whose status is `ativo` or
`disponivel`, set it on the delivery, persist, and append one
`HistoricoEntrega` row whose previous and new status both equal the
delivery's current status (an assignment audit record). -/
def EntregaViewSet.atribuir_motorista (entrega : Entrega) (hist : List HistoricoEntrega)
    (motoristas : List Motorista) (motorista_id : Option Nat)
    (now : Nat) (fresh : String) :
    Except ApiError (Entrega × List HistoricoEntrega) :=
  match motorista_id with
  | none => Except.error ⟨400, "ID do motorista é obrigatório"⟩
  | some mid =>
    match motoristas.find? (fun m =>
        m.id = mid ∧ (m.status = StatusMotorista.ativo ∨ m.status = StatusMotorista.disponivel)) with
    | none => Except.error ⟨400, "Motorista não encontrado ou não está disponível"⟩
    | some m =>
      let e1 := Entrega.save { entrega with motorista := some m.id } now fresh
      Except.ok (e1, hist ++ [{
        entrega := e1.id,
        status_anterior := e1.status,
        status_novo := e1.status,
        observacao := "Motorista atribuído à entrega",
        motorista := some m.id,
        data_atualizacao := now }])

/-- The write phase of `RotaViewSet.adicionar_entrega` (after the
capacity check passed): `rota.entregas.add(entrega)`,
`entrega.rota = rota; entrega.save()`, recompute
`capacidade_total_utilizada`, `rota.save()`. -/
def RotaViewSet.adicionar_entrega_commit (rota : Rota) (db : List Entrega)
    (eid : Nat) (now : Nat) (fresh : String) : Except ApiError (Rota × List Entrega) :=
  let rota1 := { rota with entregas := insert eid rota.entregas }
  let db1 := db.map (fun e =>
    if e.id = eid then Entrega.save { e with rota := some rota.id } now fresh else e)
  let rota2 := { rota1 with
    capacidade_total_utilizada := rota1.calcular_capacidade_utilizada db1 }
  Except.ok (rota2.save db1, db1)

/-- views.py `RotaViewSet.adicionar_entrega`: require an `entrega_id` and
an existing delivery; reject with 400 when the route has a vehicle and
the stored utilized capacity plus the delivery's required capacity
exceeds the vehicle's maximum (the early return performs no write);
otherwise add the delivery to the many-to-many set, point its `rota`
foreign key at the route, persist it, recompute the route's utilized
capacity and persist the route. -/
def RotaViewSet.adicionar_entrega (rota : Rota) (db : List Entrega)
    (entrega_id : Option Nat) (now : Nat) (fresh : String) :
    Except ApiError (Rota × List Entrega) :=
  match entrega_id with
  | none => Except.error ⟨400, "ID da entrega é obrigatório"⟩
  | some eid =>
    match db.find? (fun e => e.id = eid) with
    | none => Except.error ⟨404, "Entrega não encontrada"⟩
    | some entrega =>
      let capacidade_futura := rota.capacidade_total_utilizada + entrega.capacidade_necessaria
      match rota.veiculo with
      | some v =>
        if capacidade_futura > v.capacidade_maxima then
          Except.error ⟨400, "Capacidade máxima do veículo excedida"⟩
        else
          RotaViewSet.adicionar_entrega_commit rota db eid now fresh
      | none => RotaViewSet.adicionar_entrega_commit rota db eid now fresh

/-- views.py `RotaViewSet.remover_entrega`: require an `entrega_id`; look
the delivery up inside the route's delivery set
(`rota.entregas.get(id=entrega_id)`), answering 404 when it is not
attached; otherwise remove it from the set, clear its `rota` foreign key,
persist it, recompute the route's utilized capacity and persist the
route. -/
def RotaViewSet.remover_entrega (rota : Rota) (db : List Entrega)
    (entrega_id : Option Nat) (now : Nat) (fresh : String) :
    Except ApiError (Rota × List Entrega) :=
  match entrega_id with
  | none => Except.error ⟨400, "ID da entrega é obrigatório"⟩
  | some eid =>
    match (if eid ∈ rota.entregas then db.find? (fun e => e.id = eid) else none) with
    | none => Except.error ⟨404, "Entrega não encontrada nesta rota"⟩
    | some _ =>
      let rota1 := { rota with entregas := rota.entregas.erase eid }
      let db1 := db.map (fun e =>
        if e.id = eid then Entrega.save { e with rota := none } now fresh else e)
      let rota2 := { rota1 with
        capacidade_total_utilizada := rota1.calcular_capacidade_utilizada db1 }
      Except.ok (rota2.save db1, db1)

/-- views.py `RotaViewSet.iniciar_rota` (after the ownership permission
check): reject unless the route status is `planejada`; reject unless both
driver and vehicle are assigned; otherwise set the status to
`em_andamento`, stamp `data_inicio`, persist the route (which cascades
driver to `em_rota` and vehicle to `em_uso`), and bulk-update every
`pendente` delivery of the route to `em_transito`
(`rota.entregas.filter(status='pendente').update(status='em_transito')`,
which bypasses `Entrega.save` and writes no history rows — the history
list is returned unchanged). -/
def RotaViewSet.iniciar_rota (rota : Rota) (db : List Entrega)
    (hist : List HistoricoEntrega) (now : Nat) :
    Except ApiError (Rota × List Entrega × List HistoricoEntrega) :=
  if rota.status ≠ StatusRota.planejada then
    Except.error ⟨400, "Somente rotas planejadas podem ser iniciadas"⟩
  else if rota.motorista = none ∨ rota.veiculo = none then
    Except.error ⟨400, "Rota precisa ter motorista e veículo atribuídos"⟩
  else
    let rota1 := { rota with status := StatusRota.em_andamento, data_inicio := some now }
    let rota2 := rota1.save db
    let db1 := db.map (fun e =>
      if e.id ∈ rota.entregas ∧ e.status = StatusEntrega.pendente then
        { e with status := StatusEntrega.em_transito }
      else e)
    Except.ok (rota2, db1, hist)

/-- views.py `RotaViewSet.concluir_rota` (after the ownership permission
check): reject unless the route status is `em_andamento`; otherwise set
the status to `concluida`, stamp `data_conclusao`, overwrite
`km_total_real` / `tempo_real_minutos` when provided, persist the route
(which cascades driver and vehicle back to `disponivel`), and when a
vehicle is assigned accumulate the route's actual distance onto its
odometer (`rota.veiculo.km_atual += Decimal(str(rota.km_total_real))`)
and persist the vehicle. -/
def RotaViewSet.concluir_rota (rota : Rota) (db : List Entrega) (now : Nat)
    (km_real : Option Int) (tempo_real : Option Int) : Except ApiError Rota :=
  if rota.status ≠ StatusRota.em_andamento then
    Except.error ⟨400, "Somente rotas em andamento podem ser concluídas"⟩
  else
    let rota1 := { rota with
      status := StatusRota.concluida,
      data_conclusao := some now,
      km_total_real := km_real.getD rota.km_total_real,
      tempo_real_minutos := tempo_real.getD rota.tempo_real_minutos }
    let rota2 := rota1.save db
    let rota3 := { rota2 with
      veiculo := rota2.veiculo.map (fun v =>
        { v with km_atual := v.km_atual + rota2.km_total_real }) }
    Except.ok rota3

/-- The permission checks a view class runs before its handler; the
relevant classes of views.py / permissions.py.  The anonymous caller is
`none`. -/
inductive Permission where
  | isAuthenticated
  | isAdministrador
deriving DecidableEq, Repr

/-- Whether a request principal (`none` = anonymous, `some is_staff`
otherwise) passes one permission class. -/
def Permission.passes (user : Option Bool) : Permission → Bool
  | Permission.isAuthenticated => user.isSome
  | Permission.isAdministrador => user.getD false

/-- DRF semantics: a request is allowed when every listed permission
class passes. -/
def check_permissions (perms : List Permission) (user : Option Bool) : Bool :=
  perms.all (Permission.passes user)

/-- views.py `RastreamentoPublicoView.permission_classes = []`: the
public tracking endpoint lists no permission class. -/
def RastreamentoPublicoView.permission_classes : List Permission := []

/-- The `.upper()` applied to the query code, written as a character map
so that concrete runs reduce. -/
def upper (s : String) : String := String.mk (s.data.map Char.toUpper)

/-- views.py `RastreamentoPublicoView.get`: uppercase the `codigo` query
parameter (missing parameter defaults to the empty string); answer 400
when it is empty, 404 when no delivery carries that tracking code, and
otherwise the delivery found together with every history row of that
delivery. -/
def RastreamentoPublicoView.get (db : List Entrega) (hist : List HistoricoEntrega)
    (codigo_param : Option String) :
    Except ApiError (Entrega × List HistoricoEntrega) :=
  let codigo := upper (codigo_param.getD "")
  if codigo = "" then
    Except.error ⟨400, "Código de rastreio é obrigatório"⟩
  else
    match db.find? (fun e => e.codigo_rastreio = codigo) with
    | none => Except.error ⟨404, "Código de rastreio não encontrado"⟩
    | some entrega =>
      Except.ok (entrega, hist.filter (fun h => h.entrega = entrega.id))

/-- Decidable equality of responses, used to evaluate concrete runs of
the operations in the theorems below. -/
instance exceptDecEq (ε α : Type) [DecidableEq ε] [DecidableEq α] :
    DecidableEq (Except ε α) := fun x y =>
  match x, y with
  | Except.ok a, Except.ok b =>
      if h : a = b then Decidable.isTrue (congrArg Except.ok h)
      else Decidable.isFalse (fun hc => h (Except.ok.inj hc))
  | Except.error a, Except.error b =>
      if h : a = b then Decidable.isTrue (congrArg Except.error h)
      else Decidable.isFalse (fun hc => h (Except.error.inj hc))
  | Except.ok _, Except.error _ => Decidable.isFalse (fun hc => Except.noConfusion hc)
  | Except.error _, Except.ok _ => Decidable.isFalse (fun hc => Except.noConfusion hc)

/-- Spec-side post-condition: when a route operation answers success, the
route it returns stores exactly the sum of the required capacities of the
deliveries attached to it in the returned table (error responses perform
no write, so there is nothing to check). -/
def capacityInvariant (r : Except ApiError (Rota × List Entrega)) : Prop :=
  match r with
  | Except.ok p => p.1.capacidade_total_utilizada = Finset.sum p.1.entregas (capOf p.2)
  | Except.error _ => True

/-- Spec-side predicate: the request was accepted (a success response). -/
def Accepted {α : Type} (r : Except ApiError α) : Prop :=
  match r with
  | Except.ok _ => True
  | Except.error _ => False

/-- Spec-side transcription of the driver allow-list as the specification
states it: the only pairs (current, requested) a restricted actor may
perform. -/
def spec_allowed_pairs : List (StatusEntrega × StatusEntrega) :=
  [(StatusEntrega.pendente, StatusEntrega.em_transito),
   (StatusEntrega.em_transito, StatusEntrega.entregue),
   (StatusEntrega.em_transito, StatusEntrega.remarcada),
   (StatusEntrega.remarcada, StatusEntrega.em_transito)]

/-! Concrete records used to instantiate the theorems below. -/

/-- A pending delivery requiring 30 capacity units. -/
def entrega30 : Entrega :=
  { id := 1, codigo_rastreio := "ABC12345", status := StatusEntrega.pendente,
    capacidade_necessaria := 30, data_entrega_real := none,
    motorista := none, rota := none }

/-- A second pending delivery requiring 30 capacity units. -/
def entrega30b : Entrega :=
  { id := 2, codigo_rastreio := "DEF45678", status := StatusEntrega.pendente,
    capacidade_necessaria := 30, data_entrega_real := none,
    motorista := none, rota := none }

/-- An available driver. -/
def motorista1 : Motorista := { id := 1, status := StatusMotorista.disponivel }

/-- An available vehicle with maximum capacity 50 and odometer 100. -/
def veiculo50 : Veiculo :=
  { id := 1, capacidade_maxima := 50, km_atual := 100,
    status := StatusVeiculo.disponivel }

/-- A planned route with driver and vehicle and no deliveries yet. -/
def rotaVazia : Rota :=
  { id := 1, motorista := some motorista1, veiculo := some veiculo50,
    status := StatusRota.planejada, capacidade_total_utilizada := 0,
    km_total_real := 0, tempo_real_minutos := 0, entregas := ∅,
    data_inicio := none, data_conclusao := none }

/-- A planned route already carrying delivery 1 (30 of its 50 units used). -/
def rotaPlanejada : Rota :=
  { rotaVazia with
    id := 2,
    capacidade_total_utilizada := 30,
    entregas := ({1} : Finset Nat) }

/-- The same loaded route without an assigned vehicle. -/
def rotaSemVeiculo : Rota := { rotaPlanejada with id := 3, veiculo := none }

/-- An in-progress route carrying delivery 1, actual distance 10. -/
def rotaAndamento : Rota :=
  { rotaPlanejada with
    id := 4,
    status := StatusRota.em_andamento,
    km_total_real := 10 }

/-- Delivery 1 after moving to `em_transito`. -/
def entrega30_em_transito : Entrega :=
  { entrega30 with status := StatusEntrega.em_transito }

/-- Delivery 1 after being attached to route 3. -/
def entrega30_na_rota3 : Entrega := { entrega30 with rota := some 3 }

/-- The loaded planned route after being started at time 7. -/
def rotaIniciada : Rota :=
  { rotaPlanejada with
    status := StatusRota.em_andamento,
    data_inicio := some 7,
    motorista := some { motorista1 with status := StatusMotorista.em_rota },
    veiculo := some { veiculo50 with status := StatusVeiculo.em_uso } }

/-- The in-progress route after being completed at time 9 with actual
distance 25. -/
def rotaConcluida : Rota :=
  { rotaAndamento with
    status := StatusRota.concluida,
    data_conclusao := some 9,
    km_total_real := 25,
    motorista := some { motorista1 with status := StatusMotorista.disponivel },
    veiculo := some { veiculo50 with
      status := StatusVeiculo.disponivel, km_atual := 125 } }

/-! Basic facts about the persistence hooks, shared by several claims. -/

/-- Persisting a delivery never changes its primary key. -/
theorem Entrega.save_id (e : Entrega) (now : Nat) (fresh : String) :
    (Entrega.save e now fresh).id = e.id := by
  unfold Entrega.save
  split <;> (dsimp only; split <;> rfl)

/-- Persisting a delivery never changes its required capacity. -/
theorem Entrega.save_capacidade_necessaria (e : Entrega) (now : Nat) (fresh : String) :
    (Entrega.save e now fresh).capacidade_necessaria = e.capacidade_necessaria := by
  unfold Entrega.save
  split <;> (dsimp only; split <;> rfl)

/-- Persisting a delivery never changes its status. -/
theorem Entrega.save_status (e : Entrega) (now : Nat) (fresh : String) :
    (Entrega.save e now fresh).status = e.status := by
  unfold Entrega.save
  split <;> (dsimp only; split <;> rfl)

/-- A map over the delivery table that preserves primary keys and required
capacities leaves the `capacidade_necessaria` column unchanged. -/
theorem capOf_map (db : List Entrega) (f : Entrega → Entrega)
    (hid : ∀ e, (f e).id = e.id)
    (hcap : ∀ e, (f e).capacidade_necessaria = e.capacidade_necessaria)
    (i : Nat) : capOf (db.map f) i = capOf db i := by
  induction db with
  | nil => rfl
  | cons a l ih =>
    by_cases h : a.id = i
    · unfold capOf
      rw [List.map_cons, List.find?_cons_of_pos, List.find?_cons_of_pos]
      · simp [hcap]
      · simpa using h
      · simpa [hid] using h
    · unfold capOf at ih ⊢
      rw [List.map_cons, List.find?_cons_of_neg, List.find?_cons_of_neg]
      · exact ih
      · simpa using h
      · simpa [hid] using h

/-- A capacity-and-key preserving rewrite of the delivery table does not
change any route's recomputed utilized capacity. -/
theorem calcular_map (rota : Rota) (db : List Entrega) (f : Entrega → Entrega)
    (hid : ∀ e, (f e).id = e.id)
    (hcap : ∀ e, (f e).capacidade_necessaria = e.capacidade_necessaria) :
    rota.calcular_capacidade_utilizada (db.map f) =
      rota.calcular_capacidade_utilizada db :=
  Finset.sum_congr rfl (fun i _ => capOf_map db f hid hcap i)

/-- Persisting a route never changes its delivery set. -/
theorem Rota.save_entregas (rota : Rota) (db : List Entrega) :
    (rota.save db).entregas = rota.entregas := by
  unfold Rota.save
  cases h : rota.status <;> simp [h]

/-- Persisting a route stores the freshly recomputed utilized capacity. -/
theorem Rota.save_capacidade_total (rota : Rota) (db : List Entrega) :
    (rota.save db).capacidade_total_utilizada =
      rota.calcular_capacidade_utilizada db := by
  unfold Rota.save
  cases h : rota.status <;> simp [h, Rota.calcular_capacidade_utilizada]

/-- Persisting a route never changes its status. -/
theorem Rota.save_rstatus (rota : Rota) (db : List Entrega) :
    (rota.save db).status = rota.status := by
  unfold Rota.save
  cases h : rota.status <;> simp [h]

/-- Persisting a route never changes its timestamps or distances. -/
theorem Rota.save_misc (rota : Rota) (db : List Entrega) :
    (rota.save db).data_inicio = rota.data_inicio ∧
    (rota.save db).data_conclusao = rota.data_conclusao ∧
    (rota.save db).km_total_real = rota.km_total_real := by
  unfold Rota.save
  cases h : rota.status <;> simp [h]

/-- Persisting an `em_andamento` route forces its driver to `em_rota` and
its vehicle to `em_uso`. -/
theorem Rota.save_cascade_em_andamento (rota : Rota) (db : List Entrega)
    (h : rota.status = StatusRota.em_andamento) :
    (rota.save db).motorista =
      rota.motorista.map (fun m => { m with status := StatusMotorista.em_rota }) ∧
    (rota.save db).veiculo =
      rota.veiculo.map (fun v => { v with status := StatusVeiculo.em_uso }) := by
  unfold Rota.save
  simp [h]

/-- Persisting a `concluida` route forces its driver and vehicle back to
`disponivel`. -/
theorem Rota.save_cascade_concluida (rota : Rota) (db : List Entrega)
    (h : rota.status = StatusRota.concluida) :
    (rota.save db).motorista =
      rota.motorista.map (fun m => { m with status := StatusMotorista.disponivel }) ∧
    (rota.save db).veiculo =
      rota.veiculo.map (fun v => { v with status := StatusVeiculo.disponivel }) := by
  unfold Rota.save
  simp [h]

/-- A just-persisted route satisfies the capacity invariant against the
table it was persisted with. -/
theorem Rota.save_invariant (rota : Rota) (db : List Entrega) :
    (rota.save db).capacidade_total_utilizada =
      Finset.sum (rota.save db).entregas (capOf db) := by
  rw [Rota.save_capacidade_total, Rota.save_entregas]
  rfl

/-- The write phase of add-delivery always reestablishes the capacity
invariant on the route it persists. -/
theorem adicionar_commit_invariant (rota : Rota) (db : List Entrega)
    (eid now : Nat) (fresh : String) :
    capacityInvariant (RotaViewSet.adicionar_entrega_commit rota db eid now fresh) := by
  unfold RotaViewSet.adicionar_entrega_commit
  exact Rota.save_invariant _ _

/-- C1: after every add-delivery and every remove-delivery, the stored
`capacidade_total_utilizada` of the returned route equals the sum of
`capacidade_necessaria` over the deliveries attached to it in the
returned table, and the recomputation yields 0 on an empty delivery
set. -/
theorem C1_route_capacity_invariant :
    (∀ rota db entrega_id now fresh,
      capacityInvariant (RotaViewSet.adicionar_entrega rota db entrega_id now fresh)) ∧
    (∀ rota db entrega_id now fresh,
      capacityInvariant (RotaViewSet.remover_entrega rota db entrega_id now fresh)) ∧
    (∀ (rota : Rota) (db : List Entrega), rota.entregas = ∅ →
      rota.calcular_capacidade_utilizada db = 0) := by
  refine ⟨?_, ?_, ?_⟩
  · intro rota db entrega_id now fresh
    unfold RotaViewSet.adicionar_entrega
    cases entrega_id with
    | none => exact trivial
    | some eid =>
      dsimp only
      rcases hf : db.find? (fun e => e.id = eid) with _ | e
      · rw [hf]
        exact trivial
      · rw [hf]
        dsimp only
        rcases hv : rota.veiculo with _ | v
        · exact adicionar_commit_invariant _ _ _ _ _
        · dsimp only
          split
          · exact trivial
          · exact adicionar_commit_invariant _ _ _ _ _
  · intro rota db entrega_id now fresh
    unfold RotaViewSet.remover_entrega
    cases entrega_id with
    | none => exact trivial
    | some eid =>
      dsimp only
      rcases hf : (if eid ∈ rota.entregas then db.find? (fun e => e.id = eid) else none)
        with _ | e
      · rw [hf]
        exact trivial
      · rw [hf]
        exact Rota.save_invariant _ _
  · intro rota db h
    unfold Rota.calcular_capacidade_utilizada
    rw [h]
    exact Finset.sum_empty

/-- Witness for C1 at concrete inputs: one accepted addition, one
accepted removal, one empty route. -/
theorem C1_route_capacity_invariant_witness :
    capacityInvariant (RotaViewSet.adicionar_entrega rotaVazia [entrega30] (some 1) 5 "F") ∧
    capacityInvariant (RotaViewSet.remover_entrega rotaPlanejada [entrega30] (some 1) 5 "F") ∧
    rotaVazia.calcular_capacidade_utilizada [entrega30] = 0 :=
  ⟨C1_route_capacity_invariant.1 rotaVazia [entrega30] (some 1) 5 "F",
   C1_route_capacity_invariant.2.1 rotaPlanejada [entrega30] (some 1) 5 "F",
   C1_route_capacity_invariant.2.2 rotaVazia [entrega30] rfl⟩

/-- C2: when the route has a vehicle and the stored utilized capacity
plus the delivery's required capacity exceeds the vehicle's maximum,
add-delivery answers the capacity-exceeded error before performing any
write (so route, table and delivery are untouched); in every other case
— a fitting delivery, or a route with no vehicle at all — the addition
is accepted. -/
theorem C2_add_capacity_guard :
    (∀ rota db eid e v now fresh,
      db.find? (fun x => x.id = eid) = some e →
      rota.veiculo = some v →
      rota.capacidade_total_utilizada + e.capacidade_necessaria > v.capacidade_maxima →
      RotaViewSet.adicionar_entrega rota db (some eid) now fresh =
        Except.error ⟨400, "Capacidade máxima do veículo excedida"⟩) ∧
    (∀ rota db eid e now fresh,
      db.find? (fun x => x.id = eid) = some e →
      (rota.veiculo = none ∨ ∃ v, rota.veiculo = some v ∧
        rota.capacidade_total_utilizada + e.capacidade_necessaria ≤ v.capacidade_maxima) →
      Accepted (RotaViewSet.adicionar_entrega rota db (some eid) now fresh)) := by
  constructor
  · intro rota db eid e v now fresh hfind hv hgt
    unfold RotaViewSet.adicionar_entrega
    dsimp only
    rw [hfind]
    dsimp only
    rw [hv]
    dsimp only
    rw [if_pos hgt]
  · intro rota db eid e now fresh hfind hcase
    unfold RotaViewSet.adicionar_entrega
    dsimp only
    rw [hfind]
    dsimp only
    rcases hcase with hnone | ⟨v, hv, hle⟩
    · rw [hnone]
      unfold RotaViewSet.adicionar_entrega_commit
      exact trivial
    · rw [hv]
      dsimp only
      rw [if_neg (by omega)]
      unfold RotaViewSet.adicionar_entrega_commit
      exact trivial

/-- Witness for C2 at concrete inputs: a 30-unit delivery on a route
with 30 of 50 units used is rejected; the same delivery on an empty
route is accepted. -/
theorem C2_add_capacity_guard_witness :
    RotaViewSet.adicionar_entrega rotaPlanejada [entrega30, entrega30b] (some 2) 5 "F" =
      Except.error ⟨400, "Capacidade máxima do veículo excedida"⟩ ∧
    Accepted (RotaViewSet.adicionar_entrega rotaVazia [entrega30] (some 1) 5 "F") :=
  ⟨C2_add_capacity_guard.1 rotaPlanejada [entrega30, entrega30b] 2 entrega30b veiculo50
      5 "F" (by decide) (by decide) (by decide),
   C2_add_capacity_guard.2 rotaVazia [entrega30] 1 entrega30 5 "F" (by decide)
      (Or.inr ⟨veiculo50, by decide, by decide⟩)⟩

/-- C3 as stated fails on the code: with current status `entregue` (a
status that is not a key of the serializer's `allowed_transitions` dict)
a restricted driver's update to `pendente` is accepted, although the
pair is not in the allow-list and the claim requires every restricted
request from `entregue` to be rejected. -/
theorem C3_counterexample :
    validate_status false StatusEntrega.entregue StatusEntrega.pendente = true ∧
    (StatusEntrega.entregue, StatusEntrega.pendente) ∉ spec_allowed_pairs := by
  decide

/-- C3 amended: an administrator is accepted for every recognized enum
value; a restricted driver is accepted exactly when the (current,
requested) pair is in the allow-list, or the current status is not one
of the guarded statuses `pendente`/`em_transito`/`remarcada` (so from
`entregue` or `cancelada` a restricted actor is accepted for every
target, because the serializer checks only statuses that are keys of its
dict). -/
theorem C3_restricted_transition_allowlist :
    ∀ current value : StatusEntrega,
      validate_status true current value = true ∧
      (validate_status false current value = true ↔
        ((current, value) ∈ spec_allowed_pairs ∨
          current ∉ [StatusEntrega.pendente, StatusEntrega.em_transito,
            StatusEntrega.remarcada])) := by
  intro current value
  cases current <;> cases value <;> decide

/-- C4 as stated fails on the code: starting the loaded planned route
moves its pending delivery to `em_transito` through a bulk update, yet
the history table stays empty — a status change with no
DeliveryHistoryEntry. -/
theorem C4_counterexample :
    RotaViewSet.iniciar_rota rotaPlanejada [entrega30] [] 7 =
      Except.ok (rotaIniciada, [entrega30_em_transito], ([] : List HistoricoEntrega)) ∧
    entrega30.status = StatusEntrega.pendente ∧
    entrega30_em_transito.status = StatusEntrega.em_transito := by
  decide

/-- C4 amended: a status change performed through the update-status
action appends exactly one history entry whose previous field is the old
status and whose new field is the requested status; a driver-assignment
event appends exactly one entry repeating the current status; but the
bulk pending-to-in-transit update performed when a route is started
appends no history entry at all. -/
theorem C4_history_entries :
    (∀ e hist staff ns obs now fresh e' hist',
      EntregaViewSet.atualizar_status e hist staff ns obs now fresh =
        Except.ok (e', hist') →
      ∃ entry, hist' = hist ++ [entry] ∧
        entry.status_anterior = e.status ∧ entry.status_novo = ns) ∧
    (∀ e hist ms mid now fresh e' hist',
      EntregaViewSet.atribuir_motorista e hist ms mid now fresh =
        Except.ok (e', hist') →
      ∃ entry, hist' = hist ++ [entry] ∧
        entry.status_anterior = entry.status_novo ∧
        entry.status_novo = e'.status) ∧
    (∀ rota db hist now rota' db' hist',
      RotaViewSet.iniciar_rota rota db hist now = Except.ok (rota', db', hist') →
      hist' = hist) := by
  refine ⟨?_, ?_, ?_⟩
  · intro e hist staff ns obs now fresh e' hist' hok
    unfold EntregaViewSet.atualizar_status at hok
    split at hok
    · dsimp only at hok
      rw [Except.ok.injEq, Prod.mk.injEq] at hok
      exact ⟨_, hok.2.symm, rfl, rfl⟩
    · exact absurd hok (by simp)
  · intro e hist ms mid now fresh e' hist' hok
    unfold EntregaViewSet.atribuir_motorista at hok
    cases mid with
    | none => exact absurd hok (by simp)
    | some m =>
      dsimp only at hok
      rcases hf : ms.find? (fun x =>
          x.id = m ∧ (x.status = StatusMotorista.ativo ∨
            x.status = StatusMotorista.disponivel)) with _ | w
      · rw [hf] at hok
        exact absurd hok (by simp)
      · rw [hf] at hok
        dsimp only at hok
        rw [Except.ok.injEq, Prod.mk.injEq] at hok
        refine ⟨_, hok.2.symm, rfl, ?_⟩
        rw [← hok.1]
  · intro rota db hist now rota' db' hist' hok
    unfold RotaViewSet.iniciar_rota at hok
    split at hok
    · exact absurd hok (by simp)
    · split at hok
      · exact absurd hok (by simp)
      · dsimp only at hok
        rw [Except.ok.injEq, Prod.mk.injEq, Prod.mk.injEq] at hok
        exact hok.2.2.symm

/-- Witness for C4 amended at concrete inputs: one accepted status
update, one driver assignment, one route start. -/
theorem C4_history_entries_witness :
    (∃ entry,
      [({ entrega := 1, status_anterior := StatusEntrega.pendente,
          status_novo := StatusEntrega.em_transito, observacao := "ok",
          motorista := none, data_atualizacao := 7 } : HistoricoEntrega)] =
        [] ++ [entry] ∧
      entry.status_anterior = entrega30.status ∧
      entry.status_novo = StatusEntrega.em_transito) ∧
    (∃ entry,
      [({ entrega := 1, status_anterior := StatusEntrega.pendente,
          status_novo := StatusEntrega.pendente,
          observacao := "Motorista atribuído à entrega",
          motorista := some 1, data_atualizacao := 7 } : HistoricoEntrega)] =
        [] ++ [entry] ∧
      entry.status_anterior = entry.status_novo ∧
      entry.status_novo = ({ entrega30 with motorista := some 1 } : Entrega).status) ∧
    ([] : List HistoricoEntrega) = [] :=
  ⟨C4_history_entries.1 entrega30 [] true StatusEntrega.em_transito "ok" 7 "F"
      entrega30_em_transito _ (by decide),
   C4_history_entries.2.1 entrega30 [] [motorista1] (some 1) 7 "F"
      { entrega30 with motorista := some 1 } _ (by decide),
   C4_history_entries.2.2 rotaPlanejada [entrega30] [] 7 rotaIniciada
      [entrega30_em_transito] [] (by decide)⟩

/-- C5: start-route rejects any route that is not `planejada` and any
planned route missing its driver or vehicle; on success the route
becomes `em_andamento` with its start timestamp set, the driver is
forced to `em_rota`, the vehicle to `em_uso`, every pending delivery of
the route moves to `em_transito`, and every other delivery row is kept
as it was. -/
theorem C5_iniciar_rota :
    (∀ rota db hist now, rota.status ≠ StatusRota.planejada →
      RotaViewSet.iniciar_rota rota db hist now =
        Except.error ⟨400, "Somente rotas planejadas podem ser iniciadas"⟩) ∧
    (∀ rota db hist now, (rota.motorista = none ∨ rota.veiculo = none) →
      rota.status = StatusRota.planejada →
      RotaViewSet.iniciar_rota rota db hist now =
        Except.error ⟨400, "Rota precisa ter motorista e veículo atribuídos"⟩) ∧
    (∀ rota db hist now m v rota' db' hist',
      rota.motorista = some m → rota.veiculo = some v →
      RotaViewSet.iniciar_rota rota db hist now = Except.ok (rota', db', hist') →
      rota'.status = StatusRota.em_andamento ∧
      rota'.data_inicio = some now ∧
      rota'.motorista = some { m with status := StatusMotorista.em_rota } ∧
      rota'.veiculo = some { v with status := StatusVeiculo.em_uso } ∧
      (∀ e ∈ db, e.id ∈ rota.entregas → e.status = StatusEntrega.pendente →
        ({ e with status := StatusEntrega.em_transito } : Entrega) ∈ db') ∧
      (∀ e ∈ db, ¬(e.id ∈ rota.entregas ∧ e.status = StatusEntrega.pendente) →
        e ∈ db')) := by
  refine ⟨?_, ?_, ?_⟩
  · intro rota db hist now h
    unfold RotaViewSet.iniciar_rota
    rw [if_pos h]
  · intro rota db hist now hmv h
    unfold RotaViewSet.iniciar_rota
    rw [if_neg (by simp [h]), if_pos hmv]
  · intro rota db hist now m v rota' db' hist' hm hv hok
    unfold RotaViewSet.iniciar_rota at hok
    split at hok
    · exact absurd hok (by simp)
    · split at hok
      · exact absurd hok (by simp)
      · dsimp only at hok
        rw [Except.ok.injEq, Prod.mk.injEq, Prod.mk.injEq] at hok
        obtain ⟨hr, hd, -⟩ := hok
        subst hr hd
        have hst : ({ rota with
            status := StatusRota.em_andamento,
            data_inicio := some now } : Rota).status = StatusRota.em_andamento := rfl
        have hcas := Rota.save_cascade_em_andamento _ db hst
        refine ⟨?_, ?_, ?_, ?_, ?_, ?_⟩
        · rw [Rota.save_rstatus]
        · rw [(Rota.save_misc _ db).1]
        · rw [hcas.1]
          dsimp only
          rw [hm]
          rfl
        · rw [hcas.2]
          dsimp only
          rw [hv]
          rfl
        · intro e he hemem hest
          refine List.mem_map.mpr ⟨e, he, ?_⟩
          rw [if_pos ⟨hemem, hest⟩]
        · intro e he hnot
          refine List.mem_map.mpr ⟨e, he, ?_⟩
          rw [if_neg hnot]

/-- Witness for C5 at concrete inputs: an in-progress route is rejected,
a planned route without vehicle is rejected, and starting the loaded
planned route succeeds with all cascades. -/
theorem C5_iniciar_rota_witness :
    RotaViewSet.iniciar_rota rotaAndamento [entrega30] [] 7 =
      Except.error ⟨400, "Somente rotas planejadas podem ser iniciadas"⟩ ∧
    RotaViewSet.iniciar_rota rotaSemVeiculo [entrega30] [] 7 =
      Except.error ⟨400, "Rota precisa ter motorista e veículo atribuídos"⟩ ∧
    (rotaIniciada.status = StatusRota.em_andamento ∧
      rotaIniciada.data_inicio = some 7 ∧
      rotaIniciada.motorista =
        some { motorista1 with status := StatusMotorista.em_rota } ∧
      rotaIniciada.veiculo =
        some { veiculo50 with status := StatusVeiculo.em_uso } ∧
      (∀ e ∈ [entrega30], e.id ∈ rotaPlanejada.entregas →
        e.status = StatusEntrega.pendente →
        ({ e with status := StatusEntrega.em_transito } : Entrega) ∈
          [entrega30_em_transito]) ∧
      (∀ e ∈ [entrega30],
        ¬(e.id ∈ rotaPlanejada.entregas ∧ e.status = StatusEntrega.pendente) →
        e ∈ [entrega30_em_transito])) :=
  ⟨C5_iniciar_rota.1 rotaAndamento [entrega30] [] 7 (by decide),
   C5_iniciar_rota.2.1 rotaSemVeiculo [entrega30] [] 7 (by decide) (by decide),
   C5_iniciar_rota.2.2 rotaPlanejada [entrega30] [] 7 motorista1 veiculo50
     rotaIniciada [entrega30_em_transito] [] (by decide) (by decide) (by decide)⟩

/-- C6: complete-route rejects any route that is not `em_andamento`; on
success the route becomes `concluida` with its completion timestamp set,
its actual distance is the provided value when given (keeping the stored
one otherwise), the driver reverts to `disponivel`, and the vehicle
reverts to `disponivel` with its odometer increased by exactly the
route's actual distance. -/
theorem C6_concluir_rota :
    (∀ rota db now km tempo, rota.status ≠ StatusRota.em_andamento →
      RotaViewSet.concluir_rota rota db now km tempo =
        Except.error ⟨400, "Somente rotas em andamento podem ser concluídas"⟩) ∧
    (∀ rota db now km tempo rota',
      RotaViewSet.concluir_rota rota db now km tempo = Except.ok rota' →
      rota'.status = StatusRota.concluida ∧
      rota'.data_conclusao = some now ∧
      rota'.km_total_real = km.getD rota.km_total_real ∧
      (∀ m, rota.motorista = some m →
        rota'.motorista = some { m with status := StatusMotorista.disponivel }) ∧
      (∀ v, rota.veiculo = some v →
        rota'.veiculo = some { v with
          status := StatusVeiculo.disponivel,
          km_atual := v.km_atual + km.getD rota.km_total_real })) := by
  constructor
  · intro rota db now km tempo h
    unfold RotaViewSet.concluir_rota
    rw [if_pos h]
  · intro rota db now km tempo rota' hok
    unfold RotaViewSet.concluir_rota at hok
    split at hok
    · exact absurd hok (by simp)
    · dsimp only at hok
      rw [Except.ok.injEq] at hok
      subst hok
      have hst : ({ rota with
          status := StatusRota.concluida,
          data_conclusao := some now,
          km_total_real := km.getD rota.km_total_real,
          tempo_real_minutos := tempo.getD rota.tempo_real_minutos } : Rota).status =
            StatusRota.concluida := rfl
      have hcas := Rota.save_cascade_concluida _ db hst
      have hmisc := Rota.save_misc ({ rota with
          status := StatusRota.concluida,
          data_conclusao := some now,
          km_total_real := km.getD rota.km_total_real,
          tempo_real_minutos := tempo.getD rota.tempo_real_minutos } : Rota) db
      refine ⟨?_, ?_, ?_, ?_, ?_⟩
      · show (Rota.save _ db).status = StatusRota.concluida
        rw [Rota.save_rstatus]
      · show (Rota.save _ db).data_conclusao = some now
        rw [hmisc.2.1]
      · show (Rota.save _ db).km_total_real = km.getD rota.km_total_real
        rw [hmisc.2.2]
      · intro m hm
        show (Rota.save _ db).motorista = _
        rw [hcas.1]
        dsimp only
        rw [hm]
        rfl
      · intro v hv
        show ((Rota.save _ db).veiculo).map _ = _
        rw [hcas.2]
        dsimp only
        rw [hv]
        dsimp only [Option.map]
        rw [(Rota.save_misc _ db).2.2]

/-- Witness for C6 at concrete inputs: completing a planned route is
rejected; completing the in-progress route with actual distance 25 moves
the odometer from 100 to 125 and frees driver and vehicle. -/
theorem C6_concluir_rota_witness :
    RotaViewSet.concluir_rota rotaPlanejada [entrega30] 9 (some 25) none =
      Except.error ⟨400, "Somente rotas em andamento podem ser concluídas"⟩ ∧
    (rotaConcluida.status = StatusRota.concluida ∧
      rotaConcluida.data_conclusao = some 9 ∧
      rotaConcluida.km_total_real = (some (25 : Int)).getD rotaAndamento.km_total_real ∧
      (∀ m, rotaAndamento.motorista = some m →
        rotaConcluida.motorista =
          some { m with status := StatusMotorista.disponivel }) ∧
      (∀ v, rotaAndamento.veiculo = some v →
        rotaConcluida.veiculo = some { v with
          status := StatusVeiculo.disponivel,
          km_atual := v.km_atual + (some (25 : Int)).getD rotaAndamento.km_total_real })) :=
  ⟨C6_concluir_rota.1 rotaPlanejada [entrega30] 9 (some 25) none (by decide),
   C6_concluir_rota.2 rotaAndamento [entrega30] 9 (some 25) none rotaConcluida
     (by decide)⟩

/-- Persisting a delivery that already has a real delivery date keeps it. -/
theorem Entrega.save_data_pres (e : Entrega) (now : Nat) (fresh : String) (t : Nat)
    (ht : e.data_entrega_real = some t) :
    (Entrega.save e now fresh).data_entrega_real = some t := by
  simp only [Entrega.save]
  split
  · next h =>
      rw [ht] at h
      simp at h
  · split <;> simp [ht]

/-- Persisting a delivery marked `entregue` with no real delivery date
stamps it with the current time. -/
theorem Entrega.save_data_sets (e : Entrega) (now : Nat) (fresh : String)
    (hs : e.status = StatusEntrega.entregue) (hn : e.data_entrega_real = none) :
    (Entrega.save e now fresh).data_entrega_real = some now := by
  simp only [Entrega.save]
  split
  · split <;> rfl
  · next h => exact absurd ⟨hs, hn⟩ h

/-- Persisting a delivery never clears its real delivery date. -/
theorem Entrega.save_data_not_reset (e : Entrega) (now : Nat) (fresh : String)
    (h : (Entrega.save e now fresh).data_entrega_real = none) :
    e.data_entrega_real = none := by
  rcases ht : e.data_entrega_real with _ | t
  · rfl
  · rw [Entrega.save_data_pres e now fresh t ht] at h
    exact absurd h (by simp)

/-- C7: the real delivery date is written exactly once.  Every persist
preserves an already-set date and never clears one; a persist of an
`entregue` delivery with no date stamps the current time; through the
status-update action, the first accepted transition into `entregue`
stores the current time, and any later accepted update — including a
repeated transition into `entregue` — keeps the stored date unchanged. -/
theorem C7_data_entrega_real_once :
    (∀ (e : Entrega) (now : Nat) (fresh : String) (t : Nat),
      e.data_entrega_real = some t →
      (Entrega.save e now fresh).data_entrega_real = some t) ∧
    (∀ (e : Entrega) (now : Nat) (fresh : String),
      e.status = StatusEntrega.entregue → e.data_entrega_real = none →
      (Entrega.save e now fresh).data_entrega_real = some now) ∧
    (∀ (e : Entrega) (now : Nat) (fresh : String),
      (Entrega.save e now fresh).data_entrega_real = none →
      e.data_entrega_real = none) ∧
    (∀ e hist staff obs now fresh e' hist',
      e.data_entrega_real = none →
      EntregaViewSet.atualizar_status e hist staff StatusEntrega.entregue obs
        now fresh = Except.ok (e', hist') →
      e'.data_entrega_real = some now) ∧
    (∀ e hist staff ns obs now fresh e' hist' t,
      e.data_entrega_real = some t →
      EntregaViewSet.atualizar_status e hist staff ns obs now fresh =
        Except.ok (e', hist') →
      e'.data_entrega_real = some t) := by
  refine ⟨Entrega.save_data_pres, Entrega.save_data_sets,
    Entrega.save_data_not_reset, ?_, ?_⟩
  · intro e hist staff obs now fresh e' hist' hn hok
    unfold EntregaViewSet.atualizar_status at hok
    split at hok
    · dsimp only at hok
      rw [Except.ok.injEq, Prod.mk.injEq] at hok
      rw [← hok.1]
      rw [if_pos (by exact ⟨rfl, hn⟩)]
      exact Entrega.save_data_pres _ now fresh now rfl
    · exact absurd hok (by simp)
  · intro e hist staff ns obs now fresh e' hist' t ht hok
    unfold EntregaViewSet.atualizar_status at hok
    split at hok
    · dsimp only at hok
      rw [Except.ok.injEq, Prod.mk.injEq] at hok
      rw [← hok.1]
      rw [if_neg (by simp [ht])]
      exact Entrega.save_data_pres _ now fresh t ht
    · exact absurd hok (by simp)

/-- Witness for C7 at concrete inputs: a first transition of delivery 1
into `entregue` at time 11 stamps 11; a repeated transition of the
already-delivered row at time 99 keeps 11; the persistence hook behaves
the same way. -/
theorem C7_data_entrega_real_once_witness :
    (Entrega.save { entrega30 with
        status := StatusEntrega.entregue,
        data_entrega_real := some 11 } 99 "F").data_entrega_real = some 11 ∧
    (Entrega.save { entrega30 with
        status := StatusEntrega.entregue } 11 "F").data_entrega_real = some 11 ∧
    ({ entrega30 with status := StatusEntrega.em_transito } : Entrega).data_entrega_real
      = none ∧
    ({ entrega30 with
        status := StatusEntrega.entregue,
        data_entrega_real := some 11,
        motorista := none } : Entrega).data_entrega_real = some 11 :=
  ⟨C7_data_entrega_real_once.1 { entrega30 with
      status := StatusEntrega.entregue, data_entrega_real := some 11 } 99 "F" 11 rfl,
   C7_data_entrega_real_once.2.1 { entrega30 with
      status := StatusEntrega.entregue } 11 "F" rfl rfl,
   C7_data_entrega_real_once.2.2.1 { entrega30 with
      status := StatusEntrega.em_transito } 5 "F" (by decide),
   C7_data_entrega_real_once.2.2.2.2 { entrega30 with
      status := StatusEntrega.entregue, data_entrega_real := some 11 } []
      true StatusEntrega.entregue "obs" 99 "F"
      { entrega30 with
        status := StatusEntrega.entregue,
        data_entrega_real := some 11,
        motorista := none }
      [{ entrega := 1, status_anterior := StatusEntrega.entregue,
         status_novo := StatusEntrega.entregue, observacao := "obs",
         motorista := none, data_atualizacao := 99 }] 11 rfl (by decide)⟩

/-- C8 as stated fails on the code: removing delivery 1, which is not
attached to the empty route, answers a NotFound error instead of
succeeding as a no-op (`rota.entregas.get(id=...)` raises
`DoesNotExist`). -/
theorem C8_counterexample :
    RotaViewSet.remover_entrega rotaVazia [entrega30] (some 1) 5 "F" =
      Except.error ⟨404, "Entrega não encontrada nesta rota"⟩ ∧
    1 ∉ rotaVazia.entregas := by
  decide

/-- C8 amended: remove-delivery on a delivery that is not attached to
the route fails with a 404 NotFound error; the early return performs no
write, so the route's delivery set and utilized capacity are unchanged. -/
theorem C8_remove_unattached (rota : Rota) (db : List Entrega)
    (eid now : Nat) (fresh : String) (h : eid ∉ rota.entregas) :
    RotaViewSet.remover_entrega rota db (some eid) now fresh =
      Except.error ⟨404, "Entrega não encontrada nesta rota"⟩ := by
  unfold RotaViewSet.remover_entrega
  dsimp only
  rw [if_neg h]

/-- Witness for C8 amended at a concrete input. -/
theorem C8_remove_unattached_witness :
    RotaViewSet.remover_entrega rotaPlanejada [entrega30, entrega30b] (some 2) 5 "F" =
      Except.error ⟨404, "Entrega não encontrada nesta rota"⟩ :=
  C8_remove_unattached rotaPlanejada [entrega30, entrega30b] 2 5 "F" (by decide)

/-- C9 as stated fails on the code: the empty query code matches no
delivery (the only delivery's code is "ABC12345"), yet the endpoint
answers a 400 validation error, not the 404 NotFound the claim requires
for every code that no delivery carries. -/
theorem C9_counterexample :
    RastreamentoPublicoView.get [entrega30] [] (some "") =
      Except.error ⟨400, "Código de rastreio é obrigatório"⟩ ∧
    entrega30.codigo_rastreio ≠ "" := by
  decide

/-- C9 amended: the public tracking endpoint runs with an empty
permission list, so even the anonymous caller passes; a missing or empty
code answers a 400 validation error; for every query code whose
uppercased form is nonempty, the endpoint answers 404 when no delivery
carries the uppercased code, and otherwise returns the unique delivery
carrying it together with its full (possibly empty) history list. -/
theorem C9_public_tracking :
    (∀ user, check_permissions RastreamentoPublicoView.permission_classes user = true) ∧
    (∀ db hist (c : Option String), upper (c.getD "") = "" →
      RastreamentoPublicoView.get db hist c =
        Except.error ⟨400, "Código de rastreio é obrigatório"⟩) ∧
    (∀ db hist (c : Option String), upper (c.getD "") ≠ "" →
      (∀ e ∈ db, e.codigo_rastreio ≠ upper (c.getD "")) →
      RastreamentoPublicoView.get db hist c =
        Except.error ⟨404, "Código de rastreio não encontrado"⟩) ∧
    (∀ db hist (c : Option String) e, upper (c.getD "") ≠ "" →
      e ∈ db → e.codigo_rastreio = upper (c.getD "") →
      (∀ x ∈ db, x.codigo_rastreio = upper (c.getD "") → x = e) →
      RastreamentoPublicoView.get db hist c =
        Except.ok (e, hist.filter (fun h => h.entrega = e.id))) := by
  refine ⟨?_, ?_, ?_, ?_⟩
  · intro user
    rfl
  · intro db hist c h
    unfold RastreamentoPublicoView.get
    dsimp only
    rw [if_pos h]
  · intro db hist c hne hnone
    unfold RastreamentoPublicoView.get
    dsimp only
    rw [if_neg hne]
    have hf : db.find? (fun e => e.codigo_rastreio = upper (c.getD "")) = none :=
      List.find?_eq_none.mpr (fun x hx => by simpa using hnone x hx)
    rw [hf]
  · intro db hist c e hne hmem hcode huniq
    unfold RastreamentoPublicoView.get
    dsimp only
    rw [if_neg hne]
    rcases hf : db.find? (fun x => x.codigo_rastreio = upper (c.getD "")) with _ | x
    · exact absurd hcode (by simpa using List.find?_eq_none.mp hf e hmem)
    · rw [hf]
      have hx : x = e :=
        huniq x (List.mem_of_find?_eq_some hf) (by simpa using List.find?_some hf)
      rw [hx]

/-- Witness for C9 amended at concrete inputs: anonymous access passes,
the empty code gives 400, the unknown code "ZZZ" gives 404, and the
lowercase code "abc12345" finds the delivery stored as "ABC12345" with
its (empty) history. -/
theorem C9_public_tracking_witness :
    check_permissions RastreamentoPublicoView.permission_classes none = true ∧
    RastreamentoPublicoView.get [entrega30] [] none =
      Except.error ⟨400, "Código de rastreio é obrigatório"⟩ ∧
    RastreamentoPublicoView.get [entrega30] [] (some "ZZZ") =
      Except.error ⟨404, "Código de rastreio não encontrado"⟩ ∧
    RastreamentoPublicoView.get [entrega30] [] (some "abc12345") =
      Except.ok (entrega30,
        ([] : List HistoricoEntrega).filter (fun h => h.entrega = entrega30.id)) :=
  ⟨C9_public_tracking.1 none,
   C9_public_tracking.2.1 [entrega30] [] none (by decide),
   C9_public_tracking.2.2.1 [entrega30] [] (some "ZZZ") (by decide) (by decide),
   C9_public_tracking.2.2.2 [entrega30] [] (some "abc12345") entrega30
     (by decide) (by decide) (by decide) (by decide)⟩

/-- The write phase of add-delivery, applied to a delivery that is
already attached, returns the route with the same delivery set and with
the recomputation over the original table. -/
theorem adicionar_commit_idempotent (rota : Rota) (db : List Entrega)
    (eid now : Nat) (fresh : String) (rota' : Rota) (db' : List Entrega)
    (hmem : eid ∈ rota.entregas)
    (hok : RotaViewSet.adicionar_entrega_commit rota db eid now fresh =
      Except.ok (rota', db')) :
    rota'.entregas = rota.entregas ∧
    rota'.capacidade_total_utilizada = rota.calcular_capacidade_utilizada db := by
  unfold RotaViewSet.adicionar_entrega_commit at hok
  dsimp only at hok
  rw [Except.ok.injEq, Prod.mk.injEq] at hok
  obtain ⟨hr, -⟩ := hok
  have hins : insert eid rota.entregas = rota.entregas := Finset.insert_eq_self.mpr hmem
  constructor
  · rw [← hr, Rota.save_entregas]
    exact hins
  · rw [← hr, Rota.save_capacidade_total]
    unfold Rota.calcular_capacidade_utilizada
    dsimp only
    rw [hins]
    refine Finset.sum_congr rfl (fun i _ => ?_)
    refine capOf_map db _ (fun x => ?_) (fun x => ?_) i
    · dsimp only
      split
      · rw [Entrega.save_id]
      · rfl
    · dsimp only
      split
      · rw [Entrega.save_capacidade_necessaria]
      · rfl

/-- C10: add-delivery with a delivery that is already attached to the
route, when accepted, leaves the route's delivery set unchanged (the
many-to-many insert does not duplicate) and stores the recomputation
over that same set, so a route that satisfied the capacity invariant
before the call keeps exactly its previous utilized capacity. -/
theorem C10_add_idempotent (rota : Rota) (db : List Entrega) (eid : Nat)
    (e : Entrega) (now : Nat) (fresh : String) (rota' : Rota) (db' : List Entrega)
    (hfind : db.find? (fun x => x.id = eid) = some e)
    (hmem : eid ∈ rota.entregas)
    (hok : RotaViewSet.adicionar_entrega rota db (some eid) now fresh =
      Except.ok (rota', db')) :
    rota'.entregas = rota.entregas ∧
    rota'.capacidade_total_utilizada = rota.calcular_capacidade_utilizada db ∧
    (rota.capacidade_total_utilizada = rota.calcular_capacidade_utilizada db →
      rota'.capacidade_total_utilizada = rota.capacidade_total_utilizada) := by
  unfold RotaViewSet.adicionar_entrega at hok
  dsimp only at hok
  rw [hfind] at hok
  dsimp only at hok
  have hcommit : RotaViewSet.adicionar_entrega_commit rota db eid now fresh =
      Except.ok (rota', db') := by
    rcases hv : rota.veiculo with _ | v
    · rw [hv] at hok
      exact hok
    · rw [hv] at hok
      dsimp only at hok
      split at hok
      · exact absurd hok (by simp)
      · exact hok
  obtain ⟨h1, h2⟩ := adicionar_commit_idempotent rota db eid now fresh rota' db' hmem hcommit
  exact ⟨h1, h2, fun hinv => by rw [h2, ← hinv]⟩

/-- Witness for C10 at a concrete input: re-adding delivery 1 to the
vehicle-less route that already carries it is accepted and returns the
very same route. -/
theorem C10_add_idempotent_witness :
    rotaSemVeiculo.entregas = rotaSemVeiculo.entregas ∧
    rotaSemVeiculo.capacidade_total_utilizada =
      rotaSemVeiculo.calcular_capacidade_utilizada [entrega30] ∧
    (rotaSemVeiculo.capacidade_total_utilizada =
        rotaSemVeiculo.calcular_capacidade_utilizada [entrega30] →
      rotaSemVeiculo.capacidade_total_utilizada =
        rotaSemVeiculo.capacidade_total_utilizada) :=
  C10_add_idempotent rotaSemVeiculo [entrega30] 1 entrega30 5 "F"
    rotaSemVeiculo [entrega30_na_rota3] (by decide) (by decide) (by decide)

end Logistica
